import Mathlib

/-
Verification of the iso-toolkit keep-alive Telegram bot.

The repository has two source files:
  src/bot.py          — keep-alive bot (ping, check, wake, status, stats)
  src/bot_with_iso.py — extended bot (keep-alive + ISO upload/fetch hosting)

The embedding below translates the handler logic of both files.  Network
behaviour (what the remote endpoints answer) is passed in explicitly as an
environment value; each handler returns the user-visible outcome together
with the externally observable effects (number of ping calls, file
transfers performed, scratch-file state).
-/

/-- Outcome of one HTTP GET issued against the target URL, as the
runtime delivers it to ping_site: an HTTP response with some status code,
a timeout, a client/connection error, or some other exception. -/
inductive PingOutcome where
  | respond (status : Nat)
  | timeout
  | connError (e : String)
  | otherError (e : String)
  deriving DecidableEq, Repr

/-- The (success, message, status_code) triple returned by ping_site. -/
structure PingResult where
  ok : Bool
  message : String
  status : Nat
  deriving DecidableEq, Repr

/-- The mutable stats dictionary kept in bot_data:
{'total': …, 'success': …, 'failed': …}. -/
structure Stats where
  total : Nat
  success : Nat
  failed : Nat
  deriving DecidableEq, Repr

/-- Behaviour of the target endpoint: the outcome of the n-th GET a handler
issues during one invocation. -/
abbrev Endpoint := Nat → PingOutcome

/-- What check_command edits into the status message: the success text
(with the HTTP code) or the error text (with the failure message). -/
inductive CheckMessage where
  | online (status : Nat)
  | offline (message : String)
  deriving DecidableEq, Repr

/-- True on the success branch of the check handler. -/
def CheckMessage.isOnline : CheckMessage → Bool
  | .online _ => true
  | .offline _ => false

/-- Result of one invocation of the check handler: how many pings it
performed and what it reported. -/
structure CheckResult where
  pings : Nat
  reported : CheckMessage
  deriving DecidableEq, Repr

namespace Bot

/-- src/bot.py ping_site: classify one GET.  Any HTTP response counts as
online; timeout, aiohttp.ClientError and any other exception give
ok = False with status 0. -/
def ping_site : PingOutcome → PingResult
  | .respond s => ⟨true, "Site is online", s⟩
  | .timeout => ⟨false, "Request timed out", 0⟩
  | .connError e => ⟨false, "Connection error: " ++ e, 0⟩
  | .otherError e => ⟨false, "Unexpected error: " ++ e, 0⟩

/-- src/bot.py check_command: one ping, report its outcome. -/
def check_command (endpoint : Endpoint) : CheckResult :=
  let r := ping_site (endpoint 0)
  if r.ok then ⟨1, .online r.status⟩ else ⟨1, .offline r.message⟩

/-- The message wake_command edits in at the end: first ping succeeded
("Site is awake"), second ping succeeded ("Site is now awake"), or both
failed ("Failed to wake site" with the second error message). -/
inductive WakeMessage where
  | awakeFirst (status : Nat)
  | awakeSecond (status : Nat)
  | failed (message : String)
  deriving DecidableEq, Repr

/-- True unless the handler reported "Failed to wake site". -/
def WakeMessage.isSuccess : WakeMessage → Bool
  | .failed _ => false
  | _ => true

/-- Result of one invocation of wake_command. -/
structure WakeResult where
  pings : Nat
  reported : WakeMessage
  deriving DecidableEq, Repr

/-- src/bot.py wake_command: ping once; if ok report it.  Otherwise sleep
5 seconds (time is not modelled), ping once more and report that second
outcome. -/
def wake_command (endpoint : Endpoint) : WakeResult :=
  let r1 := ping_site (endpoint 0)
  if r1.ok then ⟨1, .awakeFirst r1.status⟩
  else
    let r2 := ping_site (endpoint 1)
    if r2.ok then ⟨2, .awakeSecond r2.status⟩
    else ⟨2, .failed r2.message⟩

/-- The figures stats_command prints: the three tallies, the success rate
(success/total*100, 0 when total = 0; modelled over ℚ where Python uses a
float) and the uptime flag (failed < total * 0.1). -/
structure StatsReport where
  total : Nat
  success : Nat
  failed : Nat
  rate : ℚ
  uptimeGood : Bool
  deriving DecidableEq, Repr

/-- Result of one invocation of stats_command: pings it performed (none)
and the report. -/
structure StatsResult where
  pings : Nat
  reported : StatsReport
  deriving DecidableEq, Repr

/-- src/bot.py stats_command: read the stats dictionary from bot_data and
report it together with the derived success rate.  No ping is issued. -/
def stats_command (stats : Stats) : StatsResult :=
  let rate : ℚ := if stats.total > 0 then (stats.success : ℚ) / (stats.total : ℚ) * 100 else 0
  ⟨0, ⟨stats.total, stats.success, stats.failed, rate,
    decide ((stats.failed : ℚ) < (stats.total : ℚ) * (1 / 10))⟩⟩

/-- src/bot.py auto_ping_job: one ping, then bump total and exactly one of
success/failed. -/
def auto_ping_job (endpoint : Endpoint) (stats : Stats) : Stats :=
  let r := ping_site (endpoint 0)
  if r.ok then ⟨stats.total + 1, stats.success + 1, stats.failed⟩
  else ⟨stats.total + 1, stats.success, stats.failed + 1⟩

end Bot

namespace BotIso

/-- src/bot_with_iso.py ping_site: like the bot.py version, except that
every non-timeout exception is reported as its bare text (str(e)). -/
def ping_site : PingOutcome → PingResult
  | .respond s => ⟨true, "Site is online", s⟩
  | .timeout => ⟨false, "Request timed out", 0⟩
  | .connError e => ⟨false, e, 0⟩
  | .otherError e => ⟨false, e, 0⟩

/-- src/bot_with_iso.py OWNER_ID. -/
def OWNER_ID : Nat := 1851080851

/-- src/bot_with_iso.py is_authorized: the owner, or any id in the
allowed_users set kept in bot_data. -/
def is_authorized (user_id : Nat) (allowed_users : List Nat) : Bool :=
  user_id == OWNER_ID || allowed_users.contains user_id

/-- src/bot_with_iso.py check_command: one ping, report its outcome
(the silent drop of unauthorized callers is applied by the callers
modelled below, which pass the caller identity through). -/
def check_command (endpoint : Endpoint) : CheckResult :=
  let r := ping_site (endpoint 0)
  if r.ok then ⟨1, .online r.status⟩ else ⟨1, .offline r.message⟩

/-- src/bot_with_iso.py main registers check_command as the handler of the
wake command (line 987): CommandHandler("wake", check_command). -/
def wake_handler (endpoint : Endpoint) : CheckResult :=
  check_command endpoint

/-- src/bot_with_iso.py main registers check_command as the handler of the
stats command (line 989): CommandHandler("stats", check_command).  The
handler receives the bot_data stats dictionary through its context but
never reads it. -/
def stats_handler (endpoint : Endpoint) (_stats : Stats) : CheckResult :=
  check_command endpoint

/-- src/bot_with_iso.py auto_ping_job: identical tally update. -/
def auto_ping_job (endpoint : Endpoint) (stats : Stats) : Stats :=
  let r := ping_site (endpoint 0)
  if r.ok then ⟨stats.total + 1, stats.success + 1, stats.failed⟩
  else ⟨stats.total + 1, stats.success, stats.failed + 1⟩

/-- The result dictionary of upload_to_pixeldrain, and of the Telegram
branch of upload_command.  Keys that a branch does not set are read later
with .get(…, "") / .get(…, 0); they are modelled as empty defaults. -/
structure UploadResult where
  success : Bool
  file_id : String := ""
  download_url : String := ""
  view_url : String := ""
  size : Nat := 0
  error : String := ""
  deriving DecidableEq, Repr

/-- What the POST to https://pixeldrain.com/api/file yields: the call
raises, or an HTTP response arrives with a status code, a raw body text,
and — when the body parses as JSON — the id and size fields extracted
from it. -/
inductive PdNet where
  | raised (e : String)
  | response (status : Nat) (body : String) (parsed : Option (String × Nat))
  deriving DecidableEq, Repr

/-- src/bot_with_iso.py upload_to_pixeldrain: fail fast without a key;
accept HTTP 200 and 201 and build both URLs from the parsed file id by
string templating; on any other status fold the raw body into the error;
a JSON-parse failure or a raised exception also lands in the error
field. -/
def upload_to_pixeldrain (hasPdKey : Bool) (net : PdNet) : UploadResult :=
  if !hasPdKey then { success := false, error := "No API key" }
  else
    match net with
    | .raised e => { success := false, error := e }
    | .response status body parsed =>
      if status == 200 || status == 201 then
        match parsed with
        | some (fid, sz) =>
          { success := true, file_id := fid,
            download_url := "https://pixeldrain.com/api/file/" ++ fid,
            view_url := "https://pixeldrain.com/u/" ++ fid, size := sz }
        | none => { success := false, error := "invalid JSON: " ++ body }
      else
        { success := false, error := "HTTP " ++ toString status ++ ": " ++ body }

/-- The dictionary auto_match_iso_with_server returns. -/
structure MatchResult where
  success : Bool
  iso_id : Option String := none
  message : String := ""
  error : String := ""
  deriving DecidableEq, Repr

/-- What the POST to the auto-match API yields: the call raises, or a
response arrives with a status, the matched flag and iso id of its JSON
body, and the raw body text. -/
inductive MatchNet where
  | raised (e : String)
  | response (status : Nat) (matched : Bool) (iso_id : Option String) (body : String)
  deriving DecidableEq, Repr

/-- src/bot_with_iso.py auto_match_iso_with_server: fail soft without an
API key; on HTTP 200 report the matched flag and iso id; otherwise fold
the body into the error. -/
def auto_match_iso_with_server (hasApiKey : Bool) (net : MatchNet) : MatchResult :=
  if !hasApiKey then { success := false, error := "No API key" }
  else
    match net with
    | .raised e => { success := false, error := e }
    | .response status matched iso body =>
      if status == 200 then { success := matched, iso_id := iso }
      else { success := false, error := "HTTP " ++ toString status ++ ": " ++ body }

/-- The fields of a Telegram Document that upload_command reads. -/
structure TgDocument where
  file_name : String
  file_size : Nat
  file_id : String
  deriving DecidableEq, Repr

/-- The message upload_command leaves the user with. -/
inductive UploadMessage where
  | silentIgnore
  | usageHint
  | notAFile
  | configError
  | uploadFailed (e : String)
  | matched (platform : String) (isoId : String)
  | unmatched (platform : String) (downloadUrl : String) (viewUrl : String)
  | errorCaught (e : String)
  deriving DecidableEq, Repr

/-- The platform through which an upload was reported successful, if it
was. -/
def UploadMessage.successPlatform : UploadMessage → Option String
  | .matched p _ => some p
  | .unmatched p _ _ => some p
  | _ => none

/-- Externally observable file-transfer effects of one upload_command
invocation: file downloads from Telegram to disk, POSTs to the PixelDrain
file endpoint, scratch files created. -/
structure UploadEffects where
  telegramDownloads : Nat
  pixeldrainCalls : Nat
  tempFilesCreated : Nat
  deriving DecidableEq, Repr

/-- src/bot_with_iso.py upload_command.  Arguments: the caller identity
and allow-set (for is_authorized); the replied-to message (none = no
reply, some none = reply without a document, some (some doc) = reply to a
document); whether the PixelDrain and server API keys are configured; and
the environment: whether the Telegram file download raises (some e) or
completes (none), and what the PixelDrain and auto-match calls yield.

Control flow as in the source: size over 7 GiB selects PixelDrain; that
selection with no PixelDrain key is a configuration error reported before
any transfer; otherwise a scratch file is created, the document is
downloaded from Telegram, uploaded (PixelDrain POST or the ready-made
Telegram result), the scratch file unlinked, and the auto-match outcome
decides the final message.  An exception surfaces as the generic error
message of the outer except handler. -/
def upload_command (user_id : Nat) (allowed_users : List Nat)
    (reply : Option (Option TgDocument)) (hasPdKey hasApiKey : Bool)
    (tgDownload : Option String) (pdNet : PdNet) (matchNet : MatchNet) :
    UploadMessage × UploadEffects :=
  if !is_authorized user_id allowed_users then (.silentIgnore, ⟨0, 0, 0⟩)
  else
    match reply with
    | none => (.usageHint, ⟨0, 0, 0⟩)
    | some none => (.notAFile, ⟨0, 0, 0⟩)
    | some (some doc) =>
      let use_pixeldrain : Bool := doc.file_size > 7 * 1024 ^ 3
      if use_pixeldrain && !hasPdKey then (.configError, ⟨0, 0, 0⟩)
      else
        match tgDownload with
        | some e => (.errorCaught e, ⟨1, 0, 1⟩)
        | none =>
          let result :=
            if use_pixeldrain then upload_to_pixeldrain hasPdKey pdNet
            else
              { success := true, file_id := doc.file_id,
                download_url := "tg://" ++ doc.file_id, size := doc.file_size }
          let platform := if use_pixeldrain then "pixeldrain" else "telegram"
          let effects : UploadEffects := ⟨1, if use_pixeldrain then 1 else 0, 1⟩
          if !result.success then (.uploadFailed result.error, effects)
          else
            let m := auto_match_iso_with_server hasApiKey matchNet
            if m.success && m.iso_id.isSome then
              (.matched platform (m.iso_id.getD ""), effects)
            else
              (.unmatched platform result.download_url result.view_url, effects)

/-- An exception as the fetch handler distinguishes them: the outer
handler has one branch for asyncio.TimeoutError and one for every other
Exception. -/
inductive Exn where
  | timeout
  | other (e : String)
  deriving DecidableEq, Repr

/-- Environment of one fetch_command invocation: key configuration and
what each outbound call yields.  A call either raises or returns — the
HEAD and GET return a status code, streaming the body returns the byte
count written. -/
structure FetchEnv where
  hasPdKey : Bool
  hasApiKey : Bool
  headResult : Except Exn Nat
  getResult : Except Exn Nat
  downloadBody : Except Exn Nat
  pdNet : PdNet
  matchNet : MatchNet

/-- The message fetch_command leaves the user with. -/
inductive FetchMessage where
  | silentIgnore
  | usageHint
  | invalidUrl
  | configError
  | headHttpError (status : Nat)
  | downloadHttpError (status : Nat)
  | uploadFailed (e : String)
  | matched (isoId : String) (viewUrl : String) (downloadUrl : String)
  | unmatched (fileId : String) (viewUrl : String) (downloadUrl : String)
  | timeoutError
  | errorCaught (e : String)
  deriving DecidableEq, Repr

/-- State after one fetch_command invocation: the final message, whether
a scratch file was created during the invocation, and whether it still
exists after the handler returned. -/
structure FetchState where
  message : FetchMessage
  scratchCreated : Bool
  scratchExists : Bool
  deriving DecidableEq, Repr

/-- The message the outer except branches produce from a raised
exception: the timeout text, or str(e) truncated to 200 characters. -/
def raisedMessage : Exn → FetchMessage
  | .timeout => .timeoutError
  | .other e => .errorCaught (e.take 200)

/-- Python str.startswith, over the code points of the two strings. -/
def strStartsWith (s p : String) : Bool :=
  p.data.isPrefixOf s.data

/-- src/bot_with_iso.py filename extraction in fetch_command:
url.split('/')[-1].split('?')[0] or "unknown.iso". -/
def filenameOfUrl (url : String) : String :=
  let last := ((url.splitOn "/").getLast?).getD ""
  let name := ((last.splitOn "?").headD "")
  if name == "" then "unknown.iso" else name

/-- src/bot_with_iso.py fetch_command.  Control flow as in the source:
silent drop when unauthorized; usage hint without an argument; URL must
start with http:// or https://; a missing PixelDrain key is a
configuration error; HEAD must return 200.  Only then is the scratch file
created (tempfile.NamedTemporaryFile with delete=False).  Inside the
inner try, a GET status other than 200 edits "Download failed" and
returns — without unlinking the scratch file.  A raised exception inside
the inner try unlinks the scratch file and re-raises into the outer
handler.  Otherwise the body is streamed to the scratch file, uploaded to
PixelDrain, the scratch file unlinked, and the auto-match outcome decides
the final message. -/
def fetch_command (user_id : Nat) (allowed_users : List Nat)
    (args : Option String) (env : FetchEnv) : FetchState :=
  if !is_authorized user_id allowed_users then ⟨.silentIgnore, false, false⟩
  else
    match args with
    | none => ⟨.usageHint, false, false⟩
    | some url =>
      if !(strStartsWith url "http://" || strStartsWith url "https://") then
        ⟨.invalidUrl, false, false⟩
      else if !env.hasPdKey then ⟨.configError, false, false⟩
      else
        match env.headResult with
        | .error ex => ⟨raisedMessage ex, false, false⟩
        | .ok headStatus =>
          if headStatus != 200 then ⟨.headHttpError headStatus, false, false⟩
          else
            match env.getResult with
            | .error ex => ⟨raisedMessage ex, true, false⟩
            | .ok getStatus =>
              if getStatus != 200 then ⟨.downloadHttpError getStatus, true, true⟩
              else
                match env.downloadBody with
                | .error ex => ⟨raisedMessage ex, true, false⟩
                | .ok _actualSize =>
                  let result := upload_to_pixeldrain env.hasPdKey env.pdNet
                  if !result.success then ⟨.uploadFailed result.error, true, false⟩
                  else
                    let m := auto_match_iso_with_server env.hasApiKey env.matchNet
                    if m.success && m.iso_id.isSome then
                      ⟨.matched (m.iso_id.getD "") result.view_url result.download_url,
                        true, false⟩
                    else
                      ⟨.unmatched result.file_id result.view_url result.download_url,
                        true, false⟩

end BotIso

/-- An endpoint whose first GET times out and whose later GETs answer
HTTP 200: it fails once, then succeeds. -/
def failThenOk : Endpoint :=
  fun n => if n == 0 then PingOutcome.timeout else PingOutcome.respond 200

/-- An endpoint that always answers HTTP 200. -/
def alwaysOnline : Endpoint := fun _ => PingOutcome.respond 200

/-- A stats dictionary with 4 pings recorded, 1 successful, 3 failed. -/
def demoStats : Stats := ⟨4, 1, 3⟩

/-- A fetch environment in which both keys are configured, the HEAD
returns 200 and the GET then returns 404; the later stages are fully
functional but never reached. -/
def leakEnv : BotIso.FetchEnv :=
  { hasPdKey := true, hasApiKey := true,
    headResult := Except.ok 200, getResult := Except.ok 404,
    downloadBody := Except.ok 0,
    pdNet := BotIso.PdNet.response 200 "" (some ("abc123", 1048576)),
    matchNet := BotIso.MatchNet.response 200 false none "" }

/-- A document over the 7 GiB threshold by one byte. -/
def bigDoc : BotIso.TgDocument := ⟨"big.iso", 7 * 1024 ^ 3 + 1, "tgbig"⟩

/-- A 1 MiB document, well below the 7 GiB threshold. -/
def smallDoc : BotIso.TgDocument := ⟨"small.iso", 1048576, "tgsmall"⟩

/-- A PixelDrain environment value for invocations that must not reach
the PixelDrain call. -/
def unusedPd : BotIso.PdNet := BotIso.PdNet.raised "unused"

/-- An auto-match environment value: the server answers 200 and reports
no match. -/
def noMatch : BotIso.MatchNet := BotIso.MatchNet.response 200 false none ""

/-- Supporting lemma: in every invocation of fetch_command, the scratch
file survives the handler only when the final message is the
"Download failed: HTTP …" edit — every other path either never creates it
or removes it. -/
theorem fetch_scratch_survives_only_download_error
    (user_id : Nat) (allowed_users : List Nat) (args : Option String)
    (env : BotIso.FetchEnv) :
    (BotIso.fetch_command user_id allowed_users args env).scratchExists = true →
    ∃ s, (BotIso.fetch_command user_id allowed_users args env).message
      = BotIso.FetchMessage.downloadHttpError s := by
  unfold BotIso.fetch_command
  dsimp only
  repeat' split
  all_goals simp

/-- C1: invoking fetch_command with a well-formed https URL in an
environment where the HEAD answers 200 but the GET then answers 404, the
handler reports "Download failed: HTTP 404" and returns while the scratch
file it created still exists — the scratch file is not removed on this
exit path. -/
theorem C1_fetch_scratch_file_leak :
    BotIso.fetch_command BotIso.OWNER_ID []
        (some "https://example.com/file.iso") leakEnv
      = ⟨BotIso.FetchMessage.downloadHttpError 404, true, true⟩ := by
  rfl

/-- C3 counterexample: in bot_with_iso.py the wake command is handled by
check_command; against the endpoint that fails once and then succeeds it
performs exactly one ping — not two — and reports the failure of that
first ping rather than success. -/
theorem C3_wake_counterexample :
    (BotIso.wake_handler failThenOk).pings = 1 ∧
    (BotIso.wake_handler failThenOk).reported.isOnline = false ∧
    ¬ (BotIso.wake_handler failThenOk).pings = 2 := by
  refine ⟨rfl, rfl, by decide⟩

/-- C3 (amended): in bot.py, wake_command pings once and stops there when
the first ping is ok; only when it is not ok does it ping exactly once
more, and whether it reports success is exactly the outcome of that
second ping; it never performs more than two pings.  In bot_with_iso.py
the wake command is instead bound to check_command: it performs exactly
one ping and reports that first outcome. -/
theorem C3_wake_retry_policy (endpoint : Endpoint) :
    (Bot.wake_command endpoint).pings ≤ 2 ∧
    ((Bot.ping_site (endpoint 0)).ok = true →
      (Bot.wake_command endpoint).pings = 1 ∧
      (Bot.wake_command endpoint).reported.isSuccess = true) ∧
    ((Bot.ping_site (endpoint 0)).ok = false →
      (Bot.wake_command endpoint).pings = 2 ∧
      (Bot.wake_command endpoint).reported.isSuccess
        = (Bot.ping_site (endpoint 1)).ok) ∧
    (BotIso.wake_handler endpoint).pings = 1 ∧
    BotIso.wake_handler endpoint = BotIso.check_command endpoint := by
  refine ⟨?_, ?_, ?_, ?_, rfl⟩
  · unfold Bot.wake_command
    dsimp only
    split
    · exact Nat.le_succ 1
    · split <;> exact Nat.le_refl 2
  · intro h
    simp [Bot.wake_command, h, Bot.WakeMessage.isSuccess]
  · intro h
    simp only [Bot.wake_command, h]
    cases h2 : (Bot.ping_site (endpoint 1)).ok <;>
      simp [h2, Bot.WakeMessage.isSuccess]
  · unfold BotIso.wake_handler BotIso.check_command
    dsimp only
    split <;> rfl

/-- C3 witness: at the endpoint that fails once then succeeds, bot.py's
wake_command performs two pings and its report tracks the second ping's
outcome (which is success). -/
theorem C3_wake_retry_policy_witness :
    (Bot.wake_command failThenOk).pings = 2 ∧
    (Bot.wake_command failThenOk).reported.isSuccess
      = (Bot.ping_site (failThenOk 1)).ok :=
  (C3_wake_retry_policy failThenOk).2.2.1 rfl

/-- C4: bot.py's stats_command performs no ping and reports exactly the
stats snapshot with the success rate derived from it (1 success of 4
gives rate 25).  In bot_with_iso.py, however, the stats command is bound
to check_command: it performs one fresh ping, reports the site status,
and its output is independent of the stats counters. -/
theorem C4_stats_snapshot_vs_fresh_check :
    (Bot.stats_command demoStats).pings = 0 ∧
    (Bot.stats_command demoStats).reported.total = 4 ∧
    (Bot.stats_command demoStats).reported.success = 1 ∧
    (Bot.stats_command demoStats).reported.failed = 3 ∧
    (Bot.stats_command demoStats).reported.rate = 25 ∧
    BotIso.stats_handler alwaysOnline demoStats
      = BotIso.check_command alwaysOnline ∧
    (BotIso.stats_handler alwaysOnline demoStats).pings = 1 ∧
    (BotIso.stats_handler alwaysOnline demoStats).reported
      = CheckMessage.online 200 ∧
    BotIso.stats_handler alwaysOnline demoStats
      = BotIso.stats_handler alwaysOnline ⟨100, 100, 0⟩ := by
  refine ⟨rfl, rfl, rfl, rfl, ?_, rfl, rfl, rfl, rfl⟩
  norm_num [Bot.stats_command, demoStats]

/-- C2: with no PixelDrain key configured, upload_command on a document
strictly over 7 GiB stops with the configuration error before any data
movement — no Telegram download, no PixelDrain call, no scratch file —
while on a document below the threshold it succeeds via the Telegram
inline-attachment path: the reported platform is "telegram", with one
Telegram download and zero PixelDrain calls (assuming the Telegram
download itself raises no exception, which is what passing none for it
states). -/
theorem C2_upload_relay_policy (user_id : Nat) (allowed_users : List Nat)
    (doc : BotIso.TgDocument) (hasApiKey : Bool)
    (pdNet : BotIso.PdNet) (matchNet : BotIso.MatchNet)
    (hauth : BotIso.is_authorized user_id allowed_users = true) :
    (7 * 1024 ^ 3 < doc.file_size →
      BotIso.upload_command user_id allowed_users (some (some doc)) false
          hasApiKey none pdNet matchNet
        = (BotIso.UploadMessage.configError, ⟨0, 0, 0⟩)) ∧
    (doc.file_size < 7 * 1024 ^ 3 →
      (BotIso.upload_command user_id allowed_users (some (some doc)) false
          hasApiKey none pdNet matchNet).1.successPlatform = some "telegram" ∧
      (BotIso.upload_command user_id allowed_users (some (some doc)) false
          hasApiKey none pdNet matchNet).2 = ⟨1, 0, 1⟩) := by
  have e7 : (7 * 1024 ^ 3 : Nat) = 7516192768 := by norm_num
  constructor
  · intro h
    simp [BotIso.upload_command, hauth, h]
    intro h2
    rw [e7] at h
    exact absurd h (Nat.not_lt.mpr h2)
  · intro h
    rw [e7] at h
    have hlt : ¬ (7516192768 < doc.file_size) := Nat.lt_asymm h
    constructor
    · simp only [BotIso.upload_command]
      simp [hauth, hlt]
      split <;> simp [BotIso.UploadMessage.successPlatform]
    · simp only [BotIso.upload_command]
      simp [hauth, hlt]
      split <;> simp

/-- C2 witness: as the owner with no PixelDrain key, a document one byte
over 7 GiB is refused with the configuration error and zero effects, and
a 1 MiB document is relayed via the Telegram path with one Telegram
download and no PixelDrain call. -/
theorem C2_upload_relay_policy_witness :
    (BotIso.upload_command BotIso.OWNER_ID [] (some (some bigDoc)) false false
        none unusedPd noMatch
      = (BotIso.UploadMessage.configError, ⟨0, 0, 0⟩)) ∧
    ((BotIso.upload_command BotIso.OWNER_ID [] (some (some smallDoc)) false false
        none unusedPd noMatch).1.successPlatform = some "telegram" ∧
     (BotIso.upload_command BotIso.OWNER_ID [] (some (some smallDoc)) false false
        none unusedPd noMatch).2 = ⟨1, 0, 1⟩) :=
  ⟨(C2_upload_relay_policy BotIso.OWNER_ID [] bigDoc false unusedPd noMatch
      rfl).1 (by decide),
   (C2_upload_relay_policy BotIso.OWNER_ID [] smallDoc false unusedPd noMatch
      rfl).2 (by decide)⟩
